import Mathlib

/-!
Verification development for the AWS integration-test CLI
(`cli.py` and `run_tests.py`).

The embedding models the test-orchestration core:
* a JSON value type (`Json`) with Python-style deep equality on
  objects (order-insensitive on keys, assuming unique keys as produced
  by a JSON parser); numbers are modelled as integers and the Python
  cross-type equalities (`True == 1`) are not modelled, since no
  scenario value in the claims depends on them;
* `validate_execution_result` (cli.py lines 118-192);
* `get_sfn_execution_details` (cli.py lines 103-116), embedded over an
  explicit trace of remote responses so that the recursion becomes
  structural on the trace;
* the `monitor_sfn_execution` polling loop (cli.py lines 194-256),
  likewise over a trace of poll results;
* `find_state_machine_arn` with its cache (cli.py lines 74-101);
* the aggregation and exit logic of `_run_and_summarize_tests`
  (cli.py lines 299-354);
* `_run_single_test` (cli.py lines 258-297) with Python truthiness of
  the loaded scenario value.
-/

/-- JSON values as handled by `json.loads` / `json.dumps`:
objects are field lists with unique keys (the shape a JSON parser
produces), numbers are integers. -/
inductive Json where
  | null : Json
  | bool (b : Bool) : Json
  | num (n : Int) : Json
  | str (s : String) : Json
  | arr (elems : List Json) : Json
  | obj (fields : List (String × Json)) : Json

/-- First-occurrence lookup of a key in an object's field list
(Python dict indexing; keys are unique in parsed JSON). -/
def lookupField (k : String) : List (String × Json) → Option Json
  | [] => none
  | (k', v) :: rest => if k' == k then some v else lookupField k rest

/-- Every key of `ys` is present among the keys of `xs`. -/
def keysCovered (ys xs : List (String × Json)) : Bool :=
  ys.all fun p => (lookupField p.1 xs).isSome

mutual

/-- Python deep equality (`==`) on JSON values: objects compare by key
set and per-key values (insertion order is irrelevant), arrays compare
element-wise, scalars compare by value. -/
def jsonEq : Json → Json → Bool
  | .null, .null => true
  | .bool a, .bool b => a == b
  | .num a, .num b => a == b
  | .str a, .str b => a == b
  | .arr xs, .arr ys => jsonListEq xs ys
  | .obj xs, .obj ys => jsonFieldsSub xs ys && keysCovered ys xs
  | _, _ => false
termination_by a _ => sizeOf a

/-- Element-wise Python equality of two JSON arrays. -/
def jsonListEq : List Json → List Json → Bool
  | [], [] => true
  | x :: xs, y :: ys => jsonEq x y && jsonListEq xs ys
  | _, _ => false
termination_by xs _ => sizeOf xs

/-- Every field of the first object list has an equal value under the
same key in the second. -/
def jsonFieldsSub : List (String × Json) → List (String × Json) → Bool
  | [], _ => true
  | (k, v) :: rest, ys =>
      (match lookupField k ys with
       | some w => jsonEq v w
       | none => false) && jsonFieldsSub rest ys
termination_by xs _ => sizeOf xs

end

/-- Walking a nested path through the actual output, mirroring the
inner loop of `validate_execution_result` (cli.py lines 167-175):
each step requires the current level to be a dict containing the
step key. -/
def walkPath : Json → List String → Option Json
  | j, [] => some j
  | .obj fields, step :: rest =>
      match lookupField step fields with
      | some v => walkPath v rest
      | none => none
  | _, _ :: _ => none

/-- The fixed field-path mapping table of `validate_execution_result`
(cli.py lines 160-163). -/
def keyMappings : List (String × List String) :=
  [("statusCode", ["apiResult", "StatusCode"]),
   ("statusInDb", ["verificationData", "Item", "status", "S"])]

/-- The projection loop of `validate_execution_result` (cli.py lines
165-177): for each mapped key that occurs in the expected block, walk
its path in the actual output; a failed walk records a validation
error (second component `true`), a successful one adds the reached
value under the logical key. -/
def collectProjection (mappings : List (String × List String))
    (expected : List (String × Json)) (actual : Json) :
    List (String × Json) × Bool :=
  match mappings with
  | [] => ([], false)
  | (k, path) :: rest =>
      let tail := collectProjection rest expected actual
      if (lookupField k expected).isSome then
        match walkPath actual path with
        | some v => ((k, v) :: tail.1, tail.2)
        | none => (tail.1, true)
      else tail

/-- The `output` field of a describe-execution response as consumed by
`json.loads(execution_details.get('output', '{}'))`: the key may be
absent (the `'{}'` default parses to the empty object), present but
not valid JSON, or present and parsed. -/
inductive OutputField where
  | absent : OutputField
  | invalid : OutputField
  | parsed (j : Json) : OutputField

/-- `json.loads(execution_details.get('output', '{}'))`:
`none` models the `json.JSONDecodeError` branch. -/
def parseOutput : OutputField → Option Json
  | .absent => some (.obj [])
  | .invalid => none
  | .parsed j => some j

/-- The `error` block of a scenario (`{Error, Cause}` per the scenario
file format): each field is absent or a string. -/
structure ErrorBlock where
  errorType : Option String
  cause : Option String
deriving DecidableEq

/-- Scenario configuration as consumed by `validate_execution_result`:
presence of the `error` key, and the `expected` block restricted to
the structured-object shape that the mapping/comparison logic of the
source addresses. -/
structure ScenarioConfig where
  errorBlock : Option ErrorBlock
  expected : Option (List (String × Json))

/-- Terminal (or in-flight) snapshot of a remote execution as read by
the validator: `status`, `error`, `cause` are the `.get` results on
the describe response, `output` is the raw output field. -/
structure ExecutionDetails where
  status : Option String
  error : Option String
  cause : Option String
  output : OutputField

/-- Python truthiness of `.get('Error')` / `.get('Cause')` on the
error block: absent and the empty string are falsy. -/
def truthyStr : Option String → Bool
  | none => false
  | some s => !(s == "")

/-- Sliding scan: does `needle` occur as a contiguous run in the
character list? -/
def strContainsAux (needle : List Char) : List Char → Bool
  | [] => needle.isEmpty
  | c :: rest => needle.isPrefixOf (c :: rest) || strContainsAux needle rest

/-- Python `needle in hay` on strings: literal, case-sensitive
substring containment. -/
def strContains (hay needle : String) : Bool :=
  strContainsAux needle.toList hay.toList

/-- `validate_execution_result` (cli.py lines 118-192), translated
branch by branch; the message list mirrors which diagnostic lines are
emitted (texts abbreviated). -/
def validate_execution_result (d : ExecutionDetails) (cfg : ScenarioConfig) :
    Bool × List String :=
  match cfg.errorBlock with
  | some eb =>
      if d.status ≠ some "FAILED" then
        (false, ["Validacao Falhou: Status esperado FAILED"])
      else if truthyStr eb.errorType ∧ eb.errorType ≠ d.error then
        (false, ["Validacao Falhou: Tipo de erro esperado nao corresponde"])
      else if truthyStr eb.cause ∧
          strContains (d.cause.getD "") (eb.cause.getD "") = false then
        (false, ["Validacao Falhou: Causa esperada nao encontrada"])
      else
        (true, ["Validacao bem-sucedida: O teste falhou como esperado"])
  | none =>
      if d.status ≠ some "SUCCEEDED" then
        (false, ["Validacao Falhou: Status esperado SUCCEEDED",
                 "Erro e causa reportados"])
      else
        match cfg.expected with
        | none => (true, [])
        | some expectedFields =>
            match parseOutput d.output with
            | none =>
                (false, ["Validacao Falhou: Output nao e um JSON valido"])
            | some actualOutput =>
                let pr := collectProjection keyMappings expectedFields actualOutput
                if pr.2 then
                  (false, ["Nao foi possivel encontrar o caminho no output",
                           "Verifique o arquivo de log"])
                else if jsonEq (.obj pr.1) (.obj expectedFields) = false then
                  (false, ["Validacao Falhou: Output normalizado nao corresponde ao esperado"])
                else
                  (true, ["Validacao bem-sucedida: Output corresponde ao esperado"])

/-- One remote `describe_execution` response as seen by
`get_sfn_execution_details` (cli.py lines 103-116): a successful
response, a `ClientError` with code `ThrottlingException`, another
`ClientError`, or another exception. -/
inductive DescribeResponse where
  | ok (d : ExecutionDetails) : DescribeResponse
  | throttle : DescribeResponse
  | clientError : DescribeResponse
  | exn : DescribeResponse

/-- Is the response a `ThrottlingException` client error? -/
def DescribeResponse.isThrottle : DescribeResponse → Bool
  | .throttle => true
  | _ => false

/-- `get_sfn_execution_details` (cli.py lines 103-116) over an
explicit trace of remote responses, one consumed per call: on a
throttling error the function sleeps and calls itself again on the
rest of the trace; any other client error or exception yields
`some none` (the Python `return None`); a successful describe yields
`some (some d)`. The outer `none` means the trace was exhausted while
the function was still retrying, i.e. the recursion has not returned
within the recorded responses. -/
def get_sfn_execution_details :
    List DescribeResponse → Option (Option ExecutionDetails)
  | [] => none
  | .ok d :: _ => some (some d)
  | .throttle :: rest => get_sfn_execution_details rest
  | .clientError :: _ => some none
  | .exn :: _ => some none

/-- Number of remote `describe_execution` calls one invocation of
`get_sfn_execution_details` issues against the given trace: one per
consumed throttle plus the final non-throttle call (or the whole trace
when it is all throttles). -/
def describeCalls : List DescribeResponse → Nat
  | [] => 0
  | .throttle :: rest => 1 + describeCalls rest
  | _ :: _ => 1

/-- The polling loop of `monitor_sfn_execution` (cli.py lines
202-212) over a trace of poll results (each entry being what
`get_sfn_execution_details` returned on that tick). The loop runs
while the status equals `RUNNING`; a poll returning details updates
the status from them; a poll returning `None` sets the status to
`UNKNOWN` and breaks. The result carries the final
`execution_details` value and the final status string; `none` means
the trace was exhausted with the loop still polling. -/
def monitorLoop :
    List (Option ExecutionDetails) → Option (Option ExecutionDetails × String)
  | [] => none
  | r :: rest =>
      match r with
      | some d =>
          if d.status = some "RUNNING" then monitorLoop rest
          else some (some d, d.status.getD "")
      | none => some (none, "UNKNOWN")

/-- The verdict `monitor_sfn_execution` returns once its loop has
terminated (cli.py lines 219-256): a monitor whose last poll failed
returns `False` after surfacing a diagnostic; otherwise the verdict
is the first component of `validate_execution_result` on the final
details. `none` means the loop has not terminated on the trace. -/
def monitor_verdict (cfg : ScenarioConfig)
    (trace : List (Option ExecutionDetails)) : Option Bool :=
  match monitorLoop trace with
  | none => none
  | some (none, _) => some false
  | some (some d, _) => some (validate_execution_result d cfg).1

/-- Cache of `find_state_machine_arn` (cli.py lines 78-97): suite name
to a cached ARN (`some arn`) or a cached not-found result (`none`). -/
abbrev ArnCache := List (String × Option String)

/-- First-occurrence lookup in the ARN cache (`name in cache` /
`cache[name]`). -/
def lookupCache (name : String) : ArnCache → Option (Option String)
  | [] => none
  | (n, v) :: rest => if n == name then some v else lookupCache name rest

/-- One remote `list_state_machines` pagination pass: either the full
listing `(name, arn)` succeeds, or a `ClientError` is raised during
it. -/
abbrev ListingService := Except Unit (List (String × String))

/-- Result of one `find_state_machine_arn` call: the returned ARN (or
`None`), the cache after the call, and how many remote listing calls
were issued. -/
structure ResolveOutcome where
  arn : Option String
  cache : ArnCache
  listingCalls : Nat
deriving DecidableEq

/-- `find_state_machine_arn` (cli.py lines 74-101): a cache hit
returns the cached value with no remote call; otherwise the listing
is paginated and matched by exact name equality, caching the found
ARN or the not-found result; a `ClientError` during listing returns
`None` without touching the cache. -/
def find_state_machine_arn (svc : ListingService) (cache : ArnCache)
    (name : String) : ResolveOutcome :=
  match lookupCache name cache with
  | some cached => ⟨cached, cache, 0⟩
  | none =>
      match svc with
      | .error _ => ⟨none, cache, 1⟩
      | .ok machines =>
          match machines.find? (fun m => m.1 == name) with
          | some m => ⟨some m.2, (name, some m.2) :: cache, 1⟩
          | none => ⟨none, (name, none) :: cache, 1⟩

/-- Outcome of one dispatched job as collected by
`_run_and_summarize_tests` (cli.py lines 309-342): the job returned
`True`, returned `False`, or raised (which the parallel collector
counts as failed). -/
inductive JobOutcome where
  | pass : JobOutcome
  | fail : JobOutcome
  | raised : JobOutcome
deriving DecidableEq

/-- The passed/failed counters of `_run_and_summarize_tests`: one
increment per collected job result, exceptions counted as failed. -/
def countResults : List JobOutcome → Nat × Nat
  | [] => (0, 0)
  | o :: rest =>
      let acc := countResults rest
      match o with
      | .pass => (acc.1 + 1, acc.2)
      | _ => (acc.1, acc.2 + 1)

/-- Process exit disposition of `_run_and_summarize_tests` (cli.py
lines 353-354): `sys.exit(1)` when the failed counter is positive,
otherwise the process continues and exits normally (status 0). -/
def summaryExitCode (outcomes : List JobOutcome) : Nat :=
  if (countResults outcomes).2 > 0 then 1 else 0

/-- Python truthiness of a loaded scenario value (`if not
test_scenario_config`): null, false, zero, the empty string, the
empty array and the empty object are falsy. -/
def pyTruthy : Json → Bool
  | .null => false
  | .bool b => b
  | .num n => !(n == 0)
  | .str s => !(s == "")
  | .arr xs => !xs.isEmpty
  | .obj fs => !fs.isEmpty

/-- Outcome of the `start_execution` call in `_run_single_test`: the
call succeeded, raised a `ClientError`, or raised another
exception. -/
inductive StartOutcome where
  | ok : StartOutcome
  | clientError : StartOutcome
  | exn : StartOutcome

/-- Result of `_run_single_test`: the boolean it returns, how many
`start_execution` calls it issued, and whether the monitor
(polling/validation) phase ran. -/
structure SingleTestResult where
  verdict : Bool
  startCalls : Nat
  polled : Bool
deriving DecidableEq

/-- `_run_single_test` (cli.py lines 258-297): `loadResult` is what
`load_scenario` returned (`none` models a missing file or a JSON
parse failure); a falsy loaded value returns `False` before any
remote call; after a successful start, `wait = false` returns `True`
without monitoring, `wait = true` returns the monitor's verdict;
a failed start returns `False`. -/
def run_single_test (loadResult : Option Json) (wait : Bool)
    (start : StartOutcome) (monitorResult : Bool) : SingleTestResult :=
  match loadResult with
  | none => ⟨false, 0, false⟩
  | some cfg =>
      if pyTruthy cfg = false then ⟨false, 0, false⟩
      else
        match start with
        | .ok =>
            if wait then ⟨monitorResult, 1, true⟩
            else ⟨true, 1, false⟩
        | .clientError => ⟨false, 1, false⟩
        | .exn => ⟨false, 1, false⟩

/-! Helper lemmas shared by the claim theorems. -/

/-- Unfolding lemma for `jsonEq` on two objects. -/
theorem jsonEq_obj (xs ys : List (String × Json)) :
    jsonEq (.obj xs) (.obj ys) = (jsonFieldsSub xs ys && keysCovered ys xs) := by
  simp [jsonEq]

/-- Characterization of the error-block branch of
`validate_execution_result`: pass exactly when the status is FAILED,
a populated expected error type equals the actual one, and a
populated expected cause occurs in the actual cause text. -/
theorem validate_error_iff (d : ExecutionDetails) (eb : ErrorBlock)
    (e : Option (List (String × Json))) :
    (validate_execution_result d ⟨some eb, e⟩).1 = true ↔
      (d.status = some "FAILED" ∧
       (truthyStr eb.errorType = true → eb.errorType = d.error) ∧
       (truthyStr eb.cause = true →
         strContains (d.cause.getD "") (eb.cause.getD "") = true)) := by
  simp only [validate_execution_result]
  split_ifs with h1 h2 h3 <;> simp_all
  all_goals tauto

/-- Keys of the normalized projection come from the mapping table:
a key matched by no mapping entry is absent from the projection. -/
theorem lookupField_collectProjection (m : List (String × List String))
    (e : List (String × Json)) (a : Json) (k : String)
    (hk : ∀ pr ∈ m, pr.1 ≠ k) :
    lookupField k (collectProjection m e a).1 = none := by
  induction m with
  | nil => rfl
  | cons hd tl ih =>
      obtain ⟨k', path⟩ := hd
      have hk' : k' ≠ k := hk (k', path) (by simp)
      have htl : ∀ pr ∈ tl, pr.1 ≠ k := fun pr hpr => hk pr (by simp [hpr])
      simp only [collectProjection]
      split_ifs with h
      · cases hw : walkPath a path with
        | some v => simp [hw, lookupField, hk', ih htl]
        | none => simp [hw, ih htl]
      · exact ih htl

/-- An object whose member key is absent from `xs` is not key-covered
by `xs`. -/
theorem keysCovered_false_of_missing (ys xs : List (String × Json))
    (p : String × Json) (hp : p ∈ ys) (h : lookupField p.1 xs = none) :
    keysCovered ys xs = false := by
  simp only [keysCovered]
  rw [List.all_eq_false]
  exact ⟨p, hp, by simp [h]⟩

/-- A result list with only passing jobs yields a zero failed
counter. -/
theorem countResults_all_pass :
    ∀ (outcomes : List JobOutcome), (∀ o ∈ outcomes, o = .pass) →
      (countResults outcomes).2 = 0
  | [], _ => rfl
  | o :: rest, h => by
      have ho : o = .pass := h o (by simp)
      have hr := countResults_all_pass rest (fun x hx => h x (by simp [hx]))
      subst ho
      simp [countResults, hr]

/-! Claim theorems. -/

/-- C1 (counterexample): the claim says that, with no field-path
normalization configured, pass is equivalent to deep equality of the
actual output with the expected block. Here the actual parsed output
is deep-equal to the expected block, the execution SUCCEEDED, yet
`validate_execution_result` fails: the hard-coded mapping table is
always applied, the projection of the output onto the mapped keys is
empty, and the empty projection differs from the expected block. -/
theorem C1_deep_equality_counterexample :
    jsonEq (Json.obj [("foo", Json.num 1)]) (Json.obj [("foo", Json.num 1)]) = true ∧
    (validate_execution_result
      ⟨some "SUCCEEDED", none, none, .parsed (Json.obj [("foo", Json.num 1)])⟩
      ⟨none, some [("foo", Json.num 1)]⟩).1 = false := by
  refine ⟨?_, ?_⟩
  · simp [jsonEq, jsonFieldsSub, keysCovered, lookupField]
  · simp [validate_execution_result, parseOutput, collectProjection, keyMappings,
      lookupField, walkPath, jsonEq, jsonFieldsSub, keysCovered]

/-- C1 (amended): for a scenario with an `expected` block and no
`error` block, on a SUCCEEDED execution whose output parses, the
verdict is pass iff every mapped key present in the expected block
resolves through its path in the actual output and the normalized
projection is deep-equal to the expected block; direct deep equality
of the full output is never used. -/
theorem C1_normalized_projection_iff (d : ExecutionDetails)
    (e : List (String × Json)) (out : Json)
    (hs : d.status = some "SUCCEEDED") (hp : parseOutput d.output = some out) :
    (validate_execution_result d ⟨none, some e⟩).1 = true ↔
      ((collectProjection keyMappings e out).2 = false ∧
       jsonEq (Json.obj (collectProjection keyMappings e out).1) (Json.obj e) = true) := by
  by_cases hpr : (collectProjection keyMappings e out).2
  · simp [validate_execution_result, hs, hp, hpr]
  · by_cases hje : jsonEq (Json.obj (collectProjection keyMappings e out).1) (Json.obj e)
    · simp [validate_execution_result, hs, hp, hpr, hje]
    · simp_all [validate_execution_result, hs, hp]

/-- C1 (witness): a SUCCEEDED execution whose output nests the status
code under `apiResult.StatusCode` passes against
`expected = (statusCode, 200)`. -/
theorem C1_normalized_projection_iff_witness :
    (validate_execution_result
      ⟨some "SUCCEEDED", none, none,
        .parsed (Json.obj [("apiResult", Json.obj [("StatusCode", Json.num 200)])])⟩
      ⟨none, some [("statusCode", Json.num 200)]⟩).1 = true :=
  (C1_normalized_projection_iff
      ⟨some "SUCCEEDED", none, none,
        .parsed (Json.obj [("apiResult", Json.obj [("StatusCode", Json.num 200)])])⟩
      [("statusCode", Json.num 200)]
      (Json.obj [("apiResult", Json.obj [("StatusCode", Json.num 200)])])
      rfl rfl).mpr
    ⟨rfl, by simp [collectProjection, keyMappings, lookupField, walkPath,
        jsonEq, jsonFieldsSub, keysCovered]⟩

/-- C2 (counterexample): the claim bounds the describe calls of one
poll attempt by two and makes a second consecutive rate-limit error a
hard failure. On a trace with two consecutive throttling errors
followed by a success, `get_sfn_execution_details` keeps retrying,
issues three describe calls, and returns the successful response. -/
theorem C2_retry_bound_counterexample :
    get_sfn_execution_details
        [.throttle, .throttle, .ok ⟨some "SUCCEEDED", none, none, .absent⟩] =
      some (some ⟨some "SUCCEEDED", none, none, .absent⟩) ∧
    describeCalls
        [.throttle, .throttle, .ok ⟨some "SUCCEEDED", none, none, .absent⟩] = 3 :=
  ⟨rfl, rfl⟩

/-- C2 (amended): on each throttling error the function retries
recursively without bound: after `n` consecutive throttles it returns
the first non-throttled response, having issued `n + 1` describe
calls, and on a trace of throttles only it never returns within the
trace (persistent rate limiting means unbounded retrying, not a hard
failure after one retry). -/
theorem C2_unbounded_retry_characterization (n : Nat) (d : ExecutionDetails)
    (rest : List DescribeResponse) :
    get_sfn_execution_details
        (List.replicate n .throttle ++ .ok d :: rest) = some (some d) ∧
    describeCalls (List.replicate n .throttle ++ .ok d :: rest) = n + 1 ∧
    get_sfn_execution_details (List.replicate n .throttle) = none := by
  induction n with
  | zero => simp [get_sfn_execution_details, describeCalls]
  | succ m ih =>
      simp only [List.replicate_succ, List.cons_append,
        get_sfn_execution_details, describeCalls, List.append_eq]
      refine ⟨ih.1, ?_, ih.2.2⟩
      rw [ih.2.1]
      omega

/-- C3 (counterexample): the claim says pass iff status is FAILED and
the cause contains the expected substring, regardless of other
content. Here the status is FAILED and the cause does contain the
substring, yet the verdict is fail, because the error block also
declares an `Error` type that differs from the actual one. -/
theorem C3_cause_only_counterexample :
    (validate_execution_result
      ⟨some "FAILED", some "OtherException",
        some "campo quantidade ausente", .absent⟩
      ⟨some ⟨some "ValidationException", some "quantidade"⟩, none⟩).1 = false ∧
    strContains "campo quantidade ausente" "quantidade" = true := by decide

/-- C3 (amended): for a scenario whose `error` block has a populated
`Cause` substring, the verdict is pass iff the status is FAILED, the
actual cause text contains the substring (literal, case-sensitive),
and additionally the `Error` type, when populated in the block,
equals the actual error type exactly. -/
theorem C3_error_block_pass_iff (d : ExecutionDetails) (eb : ErrorBlock)
    (e : Option (List (String × Json))) (hc : truthyStr eb.cause = true) :
    (validate_execution_result d ⟨some eb, e⟩).1 = true ↔
      (d.status = some "FAILED" ∧
       (truthyStr eb.errorType = true → eb.errorType = d.error) ∧
       strContains (d.cause.getD "") (eb.cause.getD "") = true) := by
  rw [validate_error_iff]
  simp [hc]

/-- C3 (witness): a FAILED execution with matching error type and a
cause containing the expected substring passes. -/
theorem C3_error_block_pass_iff_witness :
    (validate_execution_result
      ⟨some "FAILED", some "ValidationException",
        some "campo quantidade ausente", .absent⟩
      ⟨some ⟨some "ValidationException", some "quantidade"⟩, none⟩).1 = true :=
  (C3_error_block_pass_iff
      ⟨some "FAILED", some "ValidationException",
        some "campo quantidade ausente", .absent⟩
      ⟨some "ValidationException", some "quantidade"⟩ none (by decide)).mpr
    (by refine ⟨rfl, fun _ => rfl, ?_⟩; decide)

/-- C4 (counterexample): the claim says a hard-failed poll does not
terminate the monitor loop and that the loop ends only on a reported
terminal status. On a trace whose first poll hard-fails, the loop
terminates at once with status UNKNOWN (no status was ever reported)
and the monitor returns fail. -/
theorem C4_hard_failure_counterexample :
    monitorLoop [none] = some (none, "UNKNOWN") ∧
    monitor_verdict ⟨none, none⟩ [none] = some false :=
  ⟨rfl, rfl⟩

/-- C4 (amended): a poll hard failure terminates the monitor loop
immediately with status UNKNOWN and a fail verdict; in general the
loop keeps polling past a trace exactly when every poll in it
returned details with status RUNNING, i.e. it terminates at the first
poll that hard-fails or reports any status other than RUNNING. -/
theorem C4_monitor_termination (cfg : ScenarioConfig)
    (rest tr : List (Option ExecutionDetails)) :
    monitor_verdict cfg (none :: rest) = some false ∧
    (monitorLoop tr = none ↔
      ∀ r ∈ tr, ∃ d, r = some d ∧ d.status = some "RUNNING") := by
  refine ⟨rfl, ?_⟩
  induction tr with
  | nil => simp [monitorLoop]
  | cons r rest' ih =>
      cases r with
      | none => simp [monitorLoop]
      | some d =>
          by_cases h : d.status = some "RUNNING"
          · simp [monitorLoop, h, ih]
          · simp [monitorLoop, h]

/-- C5 (counterexample): the claim says an unsuccessful resolution
caused by a remote listing error is cached and not retried. After a
first call that fails with a listing error, the cache is unchanged,
and a second call for the same name issues another remote listing
call instead of serving a cached value. -/
theorem C5_listing_error_counterexample :
    (find_state_machine_arn (.error ()) [] "ProcessOrderFlow").cache = [] ∧
    (find_state_machine_arn (.error ())
        (find_state_machine_arn (.error ()) [] "ProcessOrderFlow").cache
        "ProcessOrderFlow").listingCalls = 1 :=
  ⟨rfl, rfl⟩

/-- C5 (amended): after any resolution that completed without a
listing error (target found, cached as its ARN, or not found, cached
as `None`), every subsequent call for the same name returns the
previously determined value from the cache, leaves the cache
unchanged, and issues no remote listing call — whatever the remote
service would answer on that later call. -/
theorem C5_cache_after_listing_success (ms : List (String × String))
    (cache : ArnCache) (name : String) (svc2 : ListingService) :
    find_state_machine_arn svc2
        (find_state_machine_arn (.ok ms) cache name).cache name =
      ⟨(find_state_machine_arn (.ok ms) cache name).arn,
       (find_state_machine_arn (.ok ms) cache name).cache, 0⟩ := by
  cases hc : lookupCache name cache with
  | some cached => simp [find_state_machine_arn, hc]
  | none =>
      cases hf : ms.find? (fun m => m.1 == name) with
      | some m => simp [find_state_machine_arn, hc, hf, lookupCache]
      | none => simp [find_state_machine_arn, hc, hf, lookupCache]

/-- C6: for a run that reaches the summary phase, the process exit
status is non-zero iff the failed counter is at least one, and when
every collected job outcome is a pass the exit status is zero. -/
theorem C6_exit_iff_failure (outcomes : List JobOutcome) :
    (summaryExitCode outcomes ≠ 0 ↔ 1 ≤ (countResults outcomes).2) ∧
    ((∀ o ∈ outcomes, o = .pass) → summaryExitCode outcomes = 0) := by
  constructor
  · unfold summaryExitCode
    split_ifs with h <;> omega
  · intro hall
    simp [summaryExitCode, countResults_all_pass outcomes hall]

/-- C6 (witness): a run whose jobs all passed exits with status
zero. -/
theorem C6_exit_iff_failure_witness : summaryExitCode [.pass, .pass] = 0 :=
  (C6_exit_iff_failure [.pass, .pass]).2 (by decide)

/-- C7: for a scenario that declares an `error` block, the verdict of
`validate_execution_result` is independent of any `expected` block
and is determined entirely by the error-block rules (FAILED status,
exact error-type equality when populated, cause substring containment
when populated); the SUCCEEDED/output branch is never consulted. -/
theorem C7_error_block_precedence (d : ExecutionDetails) (eb : ErrorBlock)
    (e1 e2 : Option (List (String × Json))) :
    validate_execution_result d ⟨some eb, e1⟩ =
        validate_execution_result d ⟨some eb, e2⟩ ∧
    ((validate_execution_result d ⟨some eb, e1⟩).1 = true ↔
      (d.status = some "FAILED" ∧
       (truthyStr eb.errorType = true → eb.errorType = d.error) ∧
       (truthyStr eb.cause = true →
         strContains (d.cause.getD "") (eb.cause.getD "") = true))) :=
  ⟨rfl, validate_error_iff d eb e1⟩

/-- C8: any scenario whose `expected` block holds a key outside the
fixed mapping table fails on every SUCCEEDED execution, whatever the
actual output: the normalized projection only ever holds mapped keys,
so it can never be deep-equal to that expected block. -/
theorem C8_unmapped_key_always_fails (d : ExecutionDetails)
    (ebOpt : Option ErrorBlock) (e : List (String × Json))
    (k : String) (v : Json)
    (hk : (k, v) ∈ e) (h1 : k ≠ "statusCode") (h2 : k ≠ "statusInDb")
    (hs : d.status = some "SUCCEEDED") :
    (validate_execution_result d ⟨ebOpt, some e⟩).1 = false := by
  cases ebOpt with
  | some eb => simp [validate_execution_result, hs]
  | none =>
      simp only [validate_execution_result, hs]
      cases hout : parseOutput d.output with
      | none => simp [hout]
      | some out =>
          simp only [hout]
          by_cases hpr : (collectProjection keyMappings e out).2
          · simp [hpr]
          · have hnone : lookupField k (collectProjection keyMappings e out).1 = none := by
              apply lookupField_collectProjection
              intro pr hpr'
              simp only [keyMappings, List.mem_cons, List.mem_singleton] at hpr'
              rcases hpr' with h | h | h
              · simp [h]; exact fun hh => h1 hh.symm
              · simp [h]; exact fun hh => h2 hh.symm
              · simp at h
            have hje : jsonEq (.obj (collectProjection keyMappings e out).1)
                (.obj e) = false := by
              rw [jsonEq_obj]
              rw [keysCovered_false_of_missing e _ (k, v) hk hnone]
              simp
            simp [hpr, hje]

/-- C8 (witness): an expected block holding only the unmapped key
`numPedido` fails against a SUCCEEDED execution. -/
theorem C8_unmapped_key_always_fails_witness :
    (validate_execution_result
      ⟨some "SUCCEEDED", none, none, .parsed (Json.obj [])⟩
      ⟨none, some [("numPedido", Json.str "123")]⟩).1 = false :=
  C8_unmapped_key_always_fails
    ⟨some "SUCCEEDED", none, none, .parsed (Json.obj [])⟩ none
    [("numPedido", Json.str "123")] "numPedido" (Json.str "123")
    (List.mem_cons_self _ _) (by decide) (by decide) rfl

/-- C9: with wait disabled, a job whose scenario loads truthy and
whose start call succeeds returns `True` with no polling or
validation, independently of what the monitor would have decided. -/
theorem C9_no_wait_reports_pass (cfg : Json) (mr : Bool)
    (h : pyTruthy cfg = true) :
    run_single_test (some cfg) false .ok mr = ⟨true, 1, false⟩ := by
  simp [run_single_test, h]

/-- C9 (witness): a fire-and-forget job with a truthy scenario and a
successful start is reported as passed even when the monitor would
have reported failure. -/
theorem C9_no_wait_reports_pass_witness :
    run_single_test (some (Json.obj [("input", Json.null)])) false .ok false =
      ⟨true, 1, false⟩ :=
  C9_no_wait_reports_pass (Json.obj [("input", Json.null)]) false rfl

/-- C10: a scenario file whose content parses to a falsy value is
treated as a load failure: `_run_single_test` returns fail with zero
start calls and no monitoring, exactly as for a file that is not
valid JSON. -/
theorem C10_falsy_scenario_is_load_failure (cfg : Json) (wait : Bool)
    (start : StartOutcome) (mr : Bool) (h : pyTruthy cfg = false) :
    run_single_test (some cfg) wait start mr = ⟨false, 0, false⟩ ∧
    run_single_test (some cfg) wait start mr =
      run_single_test none wait start mr := by
  simp [run_single_test, h]

/-- C10 (witness): the empty JSON object is falsy, so the job fails
with no remote execution started. -/
theorem C10_falsy_scenario_is_load_failure_witness :
    run_single_test (some (Json.obj [])) true .ok true = ⟨false, 0, false⟩ :=
  (C10_falsy_scenario_is_load_failure (Json.obj []) true .ok true rfl).1
